import Mathlib

/-!
Verification development for a minimal RISC-V type-1 hypervisor
(`hypervisor-in-1000-lines`). The definitions below are a shallow embedding
of the Rust sources: `plic.rs`, `virtio_blk.rs`, `guest_memory.rs`,
`trap.rs`, `linux_loader.rs`. Machine integers (`u16`, `u32`, `u64`) are
modelled as `Nat` with explicit `% 2^w` where the source can wrap or
truncate; a Rust `panic!`/failed `assert!` is modelled as `Option.none`;
host console logging (`println!`) is not modelled except for the guest
console lines emitted by the SBI putchar path, which several claims are
about. Guest memory is a byte map `Nat → Nat`, read and written in
little-endian order exactly where the source reads and writes typed
values through raw pointers.
-/

namespace Hyp

/-! ### Byte-addressed memory (guest RAM as seen through raw pointers) -/

/-- Memory is a map from byte address to byte value. -/
abbrev Mem := Nat → Nat

/-- Read one byte (values are always reduced mod 256). -/
def readByte (m : Mem) (a : Nat) : Nat := m a % 256

/-- Little-endian 16-bit read, as the Rust code reads a `u16` field. -/
def read16 (m : Mem) (a : Nat) : Nat := readByte m a + 256 * readByte m (a + 1)

/-- Little-endian 32-bit read. -/
def read32 (m : Mem) (a : Nat) : Nat := read16 m a + 65536 * read16 m (a + 2)

/-- Little-endian 64-bit read. -/
def read64 (m : Mem) (a : Nat) : Nat := read32 m a + 4294967296 * read32 m (a + 4)

/-- Store one byte. -/
def writeByte (m : Mem) (a v : Nat) : Mem :=
  fun x => if x = a then v % 256 else m x

/-- Little-endian 16-bit store. -/
def write16 (m : Mem) (a v : Nat) : Mem :=
  fun x =>
    if x = a then v % 256
    else if x = a + 1 then (v / 256) % 256
    else m x

/-- Little-endian 32-bit store, as the Rust code stores through a `*mut u32`. -/
def write32 (m : Mem) (a v : Nat) : Mem :=
  fun x =>
    if x = a then v % 256
    else if x = a + 1 then (v / 256) % 256
    else if x = a + 2 then (v / 65536) % 256
    else if x = a + 3 then (v / 16777216) % 256
    else m x

/-! ### PLIC model (`plic.rs`)

The source keeps `irq_pending : BTreeSet<u16>`; iteration order of a
`BTreeSet` is ascending, so `iter().next()` is the minimum. The set is
modelled as a `Finset Nat`. -/

structure Plic where
  irq_pending : Finset Nat
deriving DecidableEq

/-- Source: `Plic::new` starts with an empty pending set. -/
def Plic.new : Plic := ⟨∅⟩

/-- Source: `Plic::handle_write`. Match arms in source order: priority
(`0x0000..0x1000`), enable bits (`0x2000..0x200000`), context priority
threshold (low 12 bits 0), context claim/complete (low 12 bits 4) which
removes IRQ 1 only when the written value is 1, otherwise log-and-ignore.
(`offset & 0xfff` is `offset % 4096`.) -/
def Plic.handle_write (p : Plic) (offset value width : Nat) : Plic :=
  if offset < 0x1000 ∧ width = 4 then p
  else if 0x2000 ≤ offset ∧ offset < 0x200000 ∧ width = 4 then p
  else if 0x200000 ≤ offset ∧ offset < 0x4000000 ∧ width = 4 ∧ offset % 4096 = 0 then p
  else if 0x200000 ≤ offset ∧ offset < 0x4000000 ∧ width = 4 ∧ offset % 4096 = 4 then
    if value = 1 then { p with irq_pending := p.irq_pending.erase 1 } else p
  else p

/-- Source: `Plic::handle_read`. Enable bits read 0; the context claim
register returns the lowest pending IRQ (`iter().next()`) or 0 if none;
anything else logs and returns 0. -/
def Plic.handle_read (p : Plic) (offset width : Nat) : Nat :=
  if 0x2000 ≤ offset ∧ offset < 0x200000 ∧ width = 4 then 0
  else if 0x200000 ≤ offset ∧ offset < 0x4000000 ∧ width = 4 ∧ offset % 4096 = 4 then
    p.irq_pending.min.untop' 0
  else 0

/-- Source: `Plic::add_pending_irq` inserts into the pending set. -/
def Plic.add_pending_irq (p : Plic) (irq : Nat) : Plic :=
  { p with irq_pending := insert irq p.irq_pending }

/-! ### VirtIO-MMIO block device (`virtio_blk.rs`)

Device state fields are the `u32`/`u64` fields of `struct VirtioBlk`, in
source order (`driver_features: [u32; 2]` becomes two fields). A failed
`assert!` or a `panic!` in a handler is `none`. `resolve_guest_addr` is
not among the sources. Modelled from the spec: the spec says the ring
base pointers are translated to host pointers by walking the G-stage map,
with guest RAM identity-mapped in that sense, so it is modelled as the
identity on addresses and guest structures are read directly from the
byte map `Mem`. -/

structure VirtioBlk where
  device_features_sel : Nat
  driver_features_sel : Nat
  driver_features0 : Nat
  driver_features1 : Nat
  queue_sel : Nat
  device_status : Nat
  queue_num : Nat
  queue_desc : Nat
  queue_avail : Nat
  queue_used : Nat
  queue_ready : Nat
  irq_status : Nat
deriving DecidableEq

/-- Source: `VirtioBlk::new`, all fields zero. -/
def VirtioBlk.new : VirtioBlk := ⟨0, 0, 0, 0, 0, 0, 0, 0, 0, 0, 0, 0⟩

/-- Copy `n` bytes of `disk` starting at `srcOff` into memory at `dst`
(source: `core::ptr::copy_nonoverlapping` from `DISK_IMAGE`). -/
def copyFromDisk (m : Mem) (dst : Nat) (disk : List Nat) (srcOff n : Nat) : Mem :=
  fun a => if dst ≤ a ∧ a < dst + n then disk.getD (srcOff + (a - dst)) 0 % 256 else m a

/-- Source: one iteration of the `for i in last_used_idx..avail.idx` loop in
`VirtioBlk::process_virtqueue`, at loop index `i` with the running
`last_used_idx` value `lastUsed`. Field offsets follow the `repr(C)`
structs: `VirtqDesc {addr @0, len @8, flags @12, next @14}` (16 bytes),
`VirtqAvail {flags @0, idx @2, ring @4}` (2-byte entries),
`VirtqUsed {flags @0, idx @2, ring @4}` (8-byte entries, `id @0, len @4`),
`VirtioBlkReq {req_type @0, reserved @4, sector @8}`. The ring index is
taken `% 256` (the fixed Rust array length), `req_type` must be
`VIRTIO_BLK_T_IN = 0` (`assert!`, otherwise `none`), and the request is
completed only when the head descriptor has `VIRTQ_DESC_F_NEXT` (bit 0).
The status store is through a `*mut u32`, hence `write32`. -/
def processOne (disk : List Nat) (vb : VirtioBlk) (plic : Plic) (gm : Mem)
    (i lastUsed : Nat) : Option (VirtioBlk × Plic × Mem × Nat) :=
  let desc_idx := read16 gm (vb.queue_avail + 4 + 2 * (i % 256))
  let dBase := vb.queue_desc + 16 * desc_idx
  let dAddr := read64 gm dBase
  let dFlags := read16 gm (dBase + 12)
  let dNext := read16 gm (dBase + 14)
  let req_type := read32 gm dAddr
  let sector := read64 gm (dAddr + 8)
  if req_type ≠ 0 then none
  else if dFlags &&& 1 ≠ 0 then
    let daBase := vb.queue_desc + 16 * dNext
    let daAddr := read64 gm daBase
    let daLen := read32 gm (daBase + 8)
    let daFlags := read16 gm (daBase + 12)
    let daNext := read16 gm (daBase + 14)
    let offset := sector * 512 % 18446744073709551616
    let copy_len := min daLen (disk.length - offset)
    let gm1 := if offset < disk.length then copyFromDisk gm daAddr disk offset copy_len else gm
    let gm2 :=
      if daFlags &&& 1 ≠ 0 then
        let sBase := vb.queue_desc + 16 * daNext
        let sAddr := read64 gm1 sBase
        write32 gm1 sAddr 0
      else gm1
    let slot := vb.queue_used + 4 + 8 * (lastUsed % 256)
    let gm3 := write32 gm2 slot desc_idx
    let gm4 := write32 gm3 (slot + 4) copy_len
    let gm5 := write16 gm4 (vb.queue_used + 2) (lastUsed + 1)
    some ({ vb with irq_status := vb.irq_status ||| 1 },
          plic.add_pending_irq 1, gm5, lastUsed + 1)
  else
    some (vb, plic, gm, lastUsed)

/-- Run `fuel` successive loop iterations starting at index `i`. -/
def processLoop (disk : List Nat) (vb : VirtioBlk) (plic : Plic) (gm : Mem)
    (i lastUsed : Nat) : Nat → Option (VirtioBlk × Plic × Mem × Nat)
  | 0 => some (vb, plic, gm, lastUsed)
  | fuel + 1 =>
    match processOne disk vb plic gm i lastUsed with
    | none => none
    | some (vb', plic', gm', lu') => processLoop disk vb' plic' gm' (i + 1) lu' fuel

/-- Source: `VirtioBlk::process_virtqueue`. Returns immediately when
`queue_ready == 0`; otherwise reads `avail.idx` and `used.idx` once and
iterates the loop body `avail.idx - used.idx` times (a Rust
`for i in a..b` runs `b - a` times when `a ≤ b`, else not at all). -/
def VirtioBlk.process_virtqueue (disk : List Nat) (vb : VirtioBlk) (plic : Plic)
    (gm : Mem) : Option (VirtioBlk × Plic × Mem) :=
  if vb.queue_ready = 0 then some (vb, plic, gm)
  else
    let availIdx := read16 gm (vb.queue_avail + 2)
    let lastUsed := read16 gm (vb.queue_used + 2)
    (processLoop disk vb plic gm lastUsed lastUsed (availIdx - lastUsed)).map
      fun t => (t.1, t.2.1, t.2.2.1)

/-- Source: `VirtioBlk::handle_mmio_write`. The first statement is
`assert_eq!(width, 4)` (any other width panics, before the register
dispatch). A `u64` value written to a `u32` register is truncated
(`value as u32` is `value % 2^32`); `set_low_32`/`set_high_32` update one
half of a 64-bit pointer register; writing `0x60` clears the given bits of
`irq_status` (`&= !value`); an unknown offset panics. -/
def VirtioBlk.handle_mmio_write (disk : List Nat) (vb : VirtioBlk) (plic : Plic)
    (gm : Mem) (guest_addr value width : Nat) : Option (VirtioBlk × Plic × Mem) :=
  if width ≠ 4 then none
  else if guest_addr = 0x14 then
    some ({ vb with device_features_sel := value % 4294967296 }, plic, gm)
  else if guest_addr = 0x20 then
    some (if vb.driver_features_sel = 0 then
            { vb with driver_features0 := value % 4294967296 }
          else if vb.driver_features_sel = 1 then
            { vb with driver_features1 := value % 4294967296 }
          else vb, plic, gm)
  else if guest_addr = 0x24 then
    some ({ vb with driver_features_sel := value % 4294967296 }, plic, gm)
  else if guest_addr = 0x30 then
    some ({ vb with queue_sel := value % 4294967296 }, plic, gm)
  else if guest_addr = 0x38 then
    some ({ vb with queue_num := value % 4294967296 }, plic, gm)
  else if guest_addr = 0x44 then
    some ({ vb with queue_ready := value % 4294967296 }, plic, gm)
  else if guest_addr = 0x50 then
    vb.process_virtqueue disk plic gm
  else if guest_addr = 0x70 then
    some ({ vb with device_status := value % 4294967296 }, plic, gm)
  else if guest_addr = 0x80 then
    some ({ vb with queue_desc := vb.queue_desc / 4294967296 * 4294967296 + value % 4294967296 }, plic, gm)
  else if guest_addr = 0x84 then
    some ({ vb with queue_desc := vb.queue_desc % 4294967296 + value % 4294967296 * 4294967296 }, plic, gm)
  else if guest_addr = 0x90 then
    some ({ vb with queue_avail := vb.queue_avail / 4294967296 * 4294967296 + value % 4294967296 }, plic, gm)
  else if guest_addr = 0x94 then
    some ({ vb with queue_avail := vb.queue_avail % 4294967296 + value % 4294967296 * 4294967296 }, plic, gm)
  else if guest_addr = 0xa0 then
    some ({ vb with queue_used := vb.queue_used / 4294967296 * 4294967296 + value % 4294967296 }, plic, gm)
  else if guest_addr = 0xa4 then
    some ({ vb with queue_used := vb.queue_used % 4294967296 + value % 4294967296 * 4294967296 }, plic, gm)
  else if guest_addr = 0x60 then
    some ({ vb with irq_status := vb.irq_status &&& (4294967295 ^^^ value % 4294967296) }, plic, gm)
  else if guest_addr = 0x64 then
    some (vb, plic, gm)
  else none

/-- Source: `VirtioBlk::handle_mmio_read`. Note that the source binds the
width parameter as `_width` and never checks it: reads are served for any
width. Unknown offsets panic (`none`). -/
def VirtioBlk.handle_mmio_read (vb : VirtioBlk) (guest_addr _width : Nat) : Option Nat :=
  if guest_addr = 0x00 then some 0x74726976
  else if guest_addr = 0x04 then some 0x2
  else if guest_addr = 0x08 then some 0x2
  else if guest_addr = 0x0c then some 0x554d4551
  else if guest_addr = 0x10 then
    some (if vb.device_features_sel = 0 then 0
          else if vb.device_features_sel = 1 then 1
          else 0)
  else if guest_addr = 0x20 then
    some (if vb.driver_features_sel = 0 then vb.driver_features0
          else if vb.driver_features_sel = 1 then vb.driver_features1
          else 0)
  else if guest_addr = 0x34 then some 256
  else if guest_addr = 0x38 then some vb.queue_num
  else if guest_addr = 0x44 then some vb.queue_ready
  else if guest_addr = 0x70 then some vb.device_status
  else if guest_addr = 0x80 then some (vb.queue_desc % 4294967296)
  else if guest_addr = 0x84 then some (vb.queue_desc / 4294967296 % 4294967296)
  else if guest_addr = 0x90 then some (vb.queue_avail % 4294967296)
  else if guest_addr = 0x94 then some (vb.queue_avail / 4294967296 % 4294967296)
  else if guest_addr = 0xa0 then some (vb.queue_used % 4294967296)
  else if guest_addr = 0xa4 then some (vb.queue_used / 4294967296 % 4294967296)
  else if guest_addr = 0x100 then some 131072
  else if guest_addr = 0x104 then some 0
  else if guest_addr = 0x60 then some vb.irq_status
  else if guest_addr = 0xfc then some 0
  else none

/-! ### Guest memory region (`guest_memory.rs`)

`GuestMemory<SIZE>` is a `SIZE`-byte backing array plus a guest-physical
base. `write_bytes` computes `offset = guest_addr - guest_base` (a `u64`
subtraction, wrapping) and then copies `src` through a raw pointer with no
bounds check of any kind. The backing array is modelled as the host-memory
range `[hostBase, hostBase + size)` inside a host byte map, so that a copy
landing outside that range is visible in the model exactly as it would
land outside the array in the source. -/

/-- Wrapping 64-bit subtraction, the semantics of `u64` subtraction. -/
def sub64 (a b : Nat) : Nat :=
  (a + (18446744073709551616 - b % 18446744073709551616)) % 18446744073709551616

structure GuestMemory where
  size : Nat
  guest_base : Nat

/-- Source: `GuestMemory::write_bytes`. No range check is performed: the
bytes of `src` are stored at host addresses
`hostBase + (guest_addr - guest_base) + j` for `j < src.length`,
whatever that offset is. -/
def GuestMemory.write_bytes (g : GuestMemory) (hostBase : Nat) (host : Mem)
    (guest_addr : Nat) (src : List Nat) : Mem :=
  let offset := sub64 guest_addr g.guest_base
  fun a =>
    if hostBase + offset ≤ a ∧ a < hostBase + offset + src.length then
      src.getD (a - (hostBase + offset)) 0 % 256
    else host a

/-! ### Memory-map constants (`linux_loader.rs`)

`trap.rs` imports these under the names `GUEST_PLIC_ADDR` and
`GUEST_VIRTIO_BLK_ADDR`; the definitions in `linux_loader.rs` are
`PLIC_ADDR` and `VIRTIO_BLK_ADDR` (the claim sources point at those
lines, and the generated device tree advertises the same addresses to
the guest), so the loader's values are used. -/

def PLIC_ADDR : Nat := 0x0c000000

def PLIC_END : Nat := PLIC_ADDR + 0x400000

def VIRTIO_BLK_ADDR : Nat := 0x0a000000

def VIRTIO_BLK_END : Nat := VIRTIO_BLK_ADDR + 0x1000

/-! ### vCPU register file (`vcpu.rs`, general-purpose registers and `sepc`;
the CSR shadows `hstatus`/`sstatus`/`hgatp` and `host_sp` play no role in
the dispatcher logic and are omitted). -/

structure VCpu where
  sepc : Nat
  ra : Nat
  sp : Nat
  gp : Nat
  tp : Nat
  t0 : Nat
  t1 : Nat
  t2 : Nat
  s0 : Nat
  s1 : Nat
  a0 : Nat
  a1 : Nat
  a2 : Nat
  a3 : Nat
  a4 : Nat
  a5 : Nat
  a6 : Nat
  a7 : Nat
  s2 : Nat
  s3 : Nat
  s4 : Nat
  s5 : Nat
  s6 : Nat
  s7 : Nat
  s8 : Nat
  s9 : Nat
  s10 : Nat
  s11 : Nat
  t3 : Nat
  t4 : Nat
  t5 : Nat
  t6 : Nat
deriving DecidableEq

/-- A vCPU with all registers zero. -/
def VCpu.zero : VCpu :=
  ⟨0, 0, 0, 0, 0, 0, 0, 0, 0, 0, 0, 0, 0, 0, 0, 0, 0, 0, 0, 0, 0, 0, 0, 0, 0, 0, 0, 0, 0, 0, 0, 0⟩

/-- Source: the register-number match in `handle_mmio_write` (x0 hardwired
to 0; the `unreachable!()` arm cannot fire because callers mask the index
to 5 bits, so indices above 31 are mapped to 0 here). -/
def VCpu.getReg (v : VCpu) : Nat → Nat
  | 0 => 0
  | 1 => v.ra
  | 2 => v.sp
  | 3 => v.gp
  | 4 => v.tp
  | 5 => v.t0
  | 6 => v.t1
  | 7 => v.t2
  | 8 => v.s0
  | 9 => v.s1
  | 10 => v.a0
  | 11 => v.a1
  | 12 => v.a2
  | 13 => v.a3
  | 14 => v.a4
  | 15 => v.a5
  | 16 => v.a6
  | 17 => v.a7
  | 18 => v.s2
  | 19 => v.s3
  | 20 => v.s4
  | 21 => v.s5
  | 22 => v.s6
  | 23 => v.s7
  | 24 => v.s8
  | 25 => v.s9
  | 26 => v.s10
  | 27 => v.s11
  | 28 => v.t3
  | 29 => v.t4
  | 30 => v.t5
  | 31 => v.t6
  | _ => 0

/-- Source: the register-number match in `handle_mmio_read` (writes to x0
are ignored; indices above 31 are unreachable, mapped to no-op here). -/
def VCpu.setReg (v : VCpu) (r value : Nat) : VCpu :=
  match r with
  | 0 => v
  | 1 => { v with ra := value }
  | 2 => { v with sp := value }
  | 3 => { v with gp := value }
  | 4 => { v with tp := value }
  | 5 => { v with t0 := value }
  | 6 => { v with t1 := value }
  | 7 => { v with t2 := value }
  | 8 => { v with s0 := value }
  | 9 => { v with s1 := value }
  | 10 => { v with a0 := value }
  | 11 => { v with a1 := value }
  | 12 => { v with a2 := value }
  | 13 => { v with a3 := value }
  | 14 => { v with a4 := value }
  | 15 => { v with a5 := value }
  | 16 => { v with a6 := value }
  | 17 => { v with a7 := value }
  | 18 => { v with s2 := value }
  | 19 => { v with s3 := value }
  | 20 => { v with s4 := value }
  | 21 => { v with s5 := value }
  | 22 => { v with s6 := value }
  | 23 => { v with s7 := value }
  | 24 => { v with s8 := value }
  | 25 => { v with s9 := value }
  | 26 => { v with s10 := value }
  | 27 => { v with s11 := value }
  | 28 => { v with t3 := value }
  | 29 => { v with t4 := value }
  | 30 => { v with t5 := value }
  | 31 => { v with t6 := value }
  | _ => v

/-! ### SBI front-end (`trap.rs`, `handle_sbi_call`)

The console buffer is the process-wide `CONSOLE_BUFFER` vector, modelled
as a byte list. The putchar path emits a host line
`"[guest] " ++ (buffer decoded as UTF-8, or the placeholder "(not utf-8)")`
when the written byte is a newline; lines are modelled as byte lists, and
only these guest-console lines are modelled (other `println!` diagnostics
carry no state). -/

/-- Bytes of the string `"[guest] "`. -/
def guestTagBytes : List Nat := [91, 103, 117, 101, 115, 116, 93, 32]

/-- Bytes of the placeholder string `"(not utf-8)"` that
`core::str::from_utf8(..).unwrap_or("(not utf-8)")` produces on invalid
input. -/
def notUtf8Bytes : List Nat := [40, 110, 111, 116, 32, 117, 116, 102, 45, 56, 41]

/-- Continuation byte test for UTF-8 (`0x80..=0xBF`). -/
def isCont (c : Nat) : Bool := decide (0x80 ≤ c) && decide (c ≤ 0xbf)

/-- UTF-8 validity exactly as `core::str::from_utf8` checks it
(well-formed sequences, no overlongs, no surrogates, max U+10FFFF). -/
def validUtf8 : List Nat → Bool
  | [] => true
  | b :: rest =>
    if b < 0x80 then validUtf8 rest
    else if 0xc2 ≤ b ∧ b ≤ 0xdf then
      match rest with
      | c1 :: r => isCont c1 && validUtf8 r
      | [] => false
    else if b = 0xe0 then
      match rest with
      | c1 :: c2 :: r => decide (0xa0 ≤ c1) && decide (c1 ≤ 0xbf) && isCont c2 && validUtf8 r
      | _ => false
    else if (0xe1 ≤ b ∧ b ≤ 0xec) ∨ b = 0xee ∨ b = 0xef then
      match rest with
      | c1 :: c2 :: r => isCont c1 && isCont c2 && validUtf8 r
      | _ => false
    else if b = 0xed then
      match rest with
      | c1 :: c2 :: r => decide (0x80 ≤ c1) && decide (c1 ≤ 0x9f) && isCont c2 && validUtf8 r
      | _ => false
    else if b = 0xf0 then
      match rest with
      | c1 :: c2 :: c3 :: r =>
        decide (0x90 ≤ c1) && decide (c1 ≤ 0xbf) && isCont c2 && isCont c3 && validUtf8 r
      | _ => false
    else if 0xf1 ≤ b ∧ b ≤ 0xf3 then
      match rest with
      | c1 :: c2 :: c3 :: r => isCont c1 && isCont c2 && isCont c3 && validUtf8 r
      | _ => false
    else if b = 0xf4 then
      match rest with
      | c1 :: c2 :: c3 :: r =>
        decide (0x80 ≤ c1) && decide (c1 ≤ 0x8f) && isCont c2 && isCont c3 && validUtf8 r
      | _ => false
    else false

/-- The host line emitted for a flushed console buffer:
`"[guest] "` followed by the buffer (or the placeholder when the buffer
is not valid UTF-8). -/
def consoleLine (buf : List Nat) : List Nat :=
  guestTagBytes ++ (if validUtf8 buf then buf else notUtf8Bytes)

/-- Reduce an `i64` into the `u64` it casts to (`value as u64`). -/
def intToU64 (i : Int) : Nat := (i % 18446744073709551616).toNat

/-- Source: `handle_sbi_call`. Match arms in source order on
`(a7, a6) = (eid, fid)`; the `Result<i64, i64>` is an `Except`; an
unknown call panics (`none`). On `Ok(value)` the handler writes
`a0 := 0, a1 := value`; on `Err(err)` it writes `a0 := err` and leaves
`a1` alone. Returns the updated vCPU, the new console buffer, and the
guest-console lines emitted. -/
def handleSbiCall (v : VCpu) (buf : List Nat) :
    Option (VCpu × List Nat × List (List Nat)) :=
  let eid := v.a7
  let fid := v.a6
  let step : Option (Except Int Int × List Nat × List (List Nat)) :=
    if eid = 0 ∧ fid = 0 then some (.ok 0, buf, [])
    else if eid = 0x10 ∧ fid = 0 then some (.ok 0, buf, [])
    else if eid = 0x10 ∧ fid = 3 then some (.error (-1), buf, [])
    else if eid = 0x10 ∧ (fid = 4 ∨ fid = 5 ∨ fid = 6) then some (.ok 0, buf, [])
    else if eid = 1 ∧ fid = 0 then
      let ch := v.a0 % 256
      if ch = 10 then some (.ok 0, [], [consoleLine buf])
      else some (.ok 0, buf ++ [ch], [])
    else if eid = 2 ∧ fid = 0 then some (.error (-1), buf, [])
    else none
  step.map fun t =>
    match t.1 with
    | .ok value => ({ v with a0 := 0, a1 := intToU64 value }, t.2.1, t.2.2)
    | .error err => ({ v with a0 := intToU64 err }, t.2.1, t.2.2)

/-! ### Trap dispatcher (`trap.rs`, `handle_trap` and the MMIO helpers) -/

/-- Full machine state threaded through the dispatcher: the vCPU, the
PLIC singleton, the VirtIO block device, the console buffer and guest
memory. -/
structure Sys where
  vcpu : VCpu
  plic : Plic
  vblk : VirtioBlk
  conbuf : List Nat
  gm : Mem

/-- Routing of a faulting guest-physical address, the shared `if` chain of
`handle_mmio_write` / `handle_mmio_read`: the PLIC window
`[GUEST_PLIC_ADDR, GUEST_PLIC_ADDR + 0x400000)`, then the VirtIO window
`[GUEST_VIRTIO_BLK_ADDR, GUEST_VIRTIO_BLK_ADDR + 0x1000)`, then the
log-and-continue fallback. -/
inductive MmioTarget where
  | plicDev : MmioTarget
  | virtioDev : MmioTarget
  | fallthrough : MmioTarget
deriving DecidableEq

/-- The routing decision itself (source: the address-range `if` chain in
`handle_mmio_write` and `handle_mmio_read`). -/
def mmioTarget (guest_addr : Nat) : MmioTarget :=
  if PLIC_ADDR ≤ guest_addr ∧ guest_addr < PLIC_END then .plicDev
  else if VIRTIO_BLK_ADDR ≤ guest_addr ∧ guest_addr < VIRTIO_BLK_END then .virtioDev
  else .fallthrough

/-- Source: `handle_mmio_write`. Fetch the value from the source register,
then route by address range; the fallback only logs. -/
def handleMmioWrite (disk : List Nat) (s : Sys) (guest_addr reg width : Nat) :
    Option Sys :=
  let value := s.vcpu.getReg reg
  match mmioTarget guest_addr with
  | .plicDev =>
    some { s with plic := s.plic.handle_write (guest_addr - PLIC_ADDR) value width }
  | .virtioDev =>
    match VirtioBlk.handle_mmio_write disk s.vblk s.plic s.gm
        (guest_addr - VIRTIO_BLK_ADDR) value width with
    | none => none
    | some (vb', plic', gm') => some { s with vblk := vb', plic := plic', gm := gm' }
  | .fallthrough => some s

/-- Source: `handle_mmio_read`. Compute the value by the same routing (the
fallback reads 0), then store it to the destination register. -/
def handleMmioRead (s : Sys) (guest_addr reg width : Nat) : Option Sys :=
  let value? : Option Nat :=
    match mmioTarget guest_addr with
    | .plicDev => some (s.plic.handle_read (guest_addr - PLIC_ADDR) width)
    | .virtioDev => s.vblk.handle_mmio_read (guest_addr - VIRTIO_BLK_ADDR) width
    | .fallthrough => some 0
  value?.map fun value => { s with vcpu := s.vcpu.setReg reg value }

/-- Source: the access-width match on `(htinst & 0x7f, (htinst >> 12) & 0x7)`
in `handle_trap` (`lb/lbu`, `lh/lhu`, `lw/lwu`, `ld`, `sb`, `sh`, `sw`,
`sd`; anything else defaults to 4). -/
def decodeWidth (htinst : Nat) : Nat :=
  let op := htinst &&& 0x7f
  let f3 := (htinst >>> 12) &&& 0x7
  if op = 0x03 ∧ (f3 = 0 ∨ f3 = 4) then 1
  else if op = 0x03 ∧ (f3 = 1 ∨ f3 = 5) then 2
  else if op = 0x03 ∧ (f3 = 2 ∨ f3 = 6) then 4
  else if op = 0x03 ∧ f3 = 3 then 8
  else if op = 0x23 ∧ f3 = 0 then 1
  else if op = 0x23 ∧ f3 = 1 then 2
  else if op = 0x23 ∧ f3 = 2 then 4
  else if op = 0x23 ∧ f3 = 3 then 8
  else 4

/-- Source: `handle_trap`. The dispatcher acts on `scause`:
`10` (VS-mode ecall) runs the SBI front-end and advances `sepc` by 4;
`21`/`23` (load / store guest-page fault) assert `htinst != 0`, compute
the faulting guest-physical address `(htval << 2) | (stval & 0b11)`,
decode the width and register from `htinst`, perform the MMIO access, and
advance `sepc` by 2 for a compressed original instruction
(`htinst & 0b10 == 0`) or 4 otherwise; every other cause — including every
interrupt cause, whose `scause` has bit 63 set — panics (`none`), either as
"unknown scause" or in the final catch-all `panic!` arm. The result is the
updated state plus any emitted guest-console lines; `none` is a panic. -/
def handleTrap (disk : List Nat) (s : Sys) (scause sepc stval htval htinst : Nat) :
    Option (Sys × List (List Nat)) :=
  if scause = 10 then
    match handleSbiCall s.vcpu s.conbuf with
    | none => none
    | some (v', buf', lines) =>
      some ({ s with vcpu := { v' with sepc := (sepc + 4) % 18446744073709551616 },
                     conbuf := buf' }, lines)
  else if scause = 21 ∨ scause = 23 then
    if htinst = 0 then none
    else
      let guest_addr := (htval <<< 2) % 18446744073709551616 ||| (stval &&& 0b11)
      let width := decodeWidth htinst
      let after : Option Sys :=
        if scause = 23 then
          handleMmioWrite disk s guest_addr ((htinst >>> 20) &&& 0x1f) width
        else
          handleMmioRead s guest_addr ((htinst >>> 7) &&& 0x1f) width
      after.map fun s' =>
        ({ s' with vcpu := { s'.vcpu with
             sepc := (sepc + (if htinst &&& 0b10 = 0 then 2 else 4)) % 18446744073709551616 } },
         [])
  else none

/-- A fresh machine state: zero registers, empty PLIC, freshly reset
VirtIO device, empty console buffer, all-zero guest memory. -/
def sys0 : Sys := ⟨VCpu.zero, Plic.new, VirtioBlk.new, [], fun _ => 0⟩

/-- Issue one legacy console-putchar ecall per byte of `bs` (the guest sets
`a7 = 1`, `a6 = 0`, `a0 = byte` and executes `ecall`, i.e. trap cause 10),
collecting all emitted guest-console lines. -/
def runPutchars (disk : List Nat) : List Nat → Sys → Option (Sys × List (List Nat))
  | [], s => some (s, [])
  | b :: bs, s =>
    match handleTrap disk
        { s with vcpu := { s.vcpu with a7 := 1, a6 := 0, a0 := b } }
        10 s.vcpu.sepc 0 0 0 with
    | none => none
    | some (s', lines) =>
      (runPutchars disk bs s').map fun t => (t.1, lines ++ t.2)

/-! ### Concrete fixtures used by counterexamples and witnesses -/

/-- Guest memory for a one-request virtqueue whose driver configured queue
size 2 (`queue_num = 2`) and has already consumed two requests
(`used.idx = 2`, `avail.idx = 3`): `avail.ring[0] = 7` (head index modulo
the configured size) while `avail.ring[2] = 5` (head index modulo 256).
Descriptor 5 heads a request chain (header at `0x4000`, data descriptor 6
at `0x5000`). -/
def gmC4 : Mem := fun a =>
  if a = 0x2002 then 3
  else if a = 0x3002 then 2
  else if a = 0x2004 then 7
  else if a = 0x2008 then 5
  else if a = 0x1051 then 0x40
  else if a = 0x105c then 1
  else if a = 0x105e then 6
  else if a = 0x1061 then 0x50
  else 0

/-- Device state with queue size configured to 2 and the ring bases at
`desc = 0x1000`, `avail = 0x2000`, `used = 0x3000`. -/
def stC4 : VirtioBlk :=
  { VirtioBlk.new with
      queue_ready := 1
      queue_num := 2
      queue_desc := 0x1000
      queue_avail := 0x2000
      queue_used := 0x3000 }

/-- Guest memory for a single three-descriptor read request: header
descriptor 0 (request at `0x4000`, sector 0), data descriptor 1 (buffer at
`0x5000`, length 4), status descriptor 2 (status byte at `0x6000`). The
guest byte just past the status byte, at `0x6001`, initially holds
`0xab`. -/
def gmC6 : Mem := fun a =>
  if a = 0x2002 then 1
  else if a = 0x1001 then 0x40
  else if a = 0x100c then 1
  else if a = 0x100e then 1
  else if a = 0x1011 then 0x50
  else if a = 0x1018 then 4
  else if a = 0x101c then 1
  else if a = 0x101e then 2
  else if a = 0x1021 then 0x60
  else if a = 0x6001 then 0xab
  else 0

/-- Device state for the status-byte scenario (queue size 256). -/
def stC6 : VirtioBlk :=
  { VirtioBlk.new with
      queue_ready := 1
      queue_num := 256
      queue_desc := 0x1000
      queue_avail := 0x2000
      queue_used := 0x3000 }

/-- A machine state about to execute `ecall` with `a7 = 1`, `a6 = 0`,
`a0 = 65` (putchar of a single non-newline byte). -/
def s9w : Sys :=
  { sys0 with vcpu := { VCpu.zero with a7 := 1, a6 := 0, a0 := 65 } }

/-- A vCPU about to issue the legacy console-getchar SBI call while
holding an arbitrary-looking value in `a1`. -/
def v10 : VCpu := { VCpu.zero with a7 := 2, a6 := 0, a1 := 0xdead }

/-! ### Read-after-write lemmas for the byte-level memory -/

theorem readByte_write16_same0 (m : Mem) (a v : Nat) :
    readByte (write16 m a v) a = v % 256 := by
  unfold readByte write16
  rw [if_pos rfl]
  omega

theorem readByte_write16_same1 (m : Mem) (a v : Nat) :
    readByte (write16 m a v) (a + 1) = v / 256 % 256 := by
  unfold readByte write16
  rw [if_neg (by omega), if_pos rfl]
  omega

theorem readByte_write16_out (m : Mem) (a v x : Nat) (h : x ≠ a ∧ x ≠ a + 1) :
    readByte (write16 m a v) x = readByte m x := by
  unfold readByte write16
  rw [if_neg h.1, if_neg h.2]

theorem readByte_write32_same (m : Mem) (a v : Nat) :
    readByte (write32 m a v) a = v % 256 ∧
    readByte (write32 m a v) (a + 1) = v / 256 % 256 ∧
    readByte (write32 m a v) (a + 2) = v / 65536 % 256 ∧
    readByte (write32 m a v) (a + 3) = v / 16777216 % 256 := by
  unfold readByte write32
  refine ⟨?_, ?_, ?_, ?_⟩
  · rw [if_pos rfl]; omega
  · rw [if_neg (by omega), if_pos rfl]; omega
  · rw [if_neg (by omega), if_neg (by omega), if_pos rfl]; omega
  · rw [if_neg (by omega), if_neg (by omega), if_neg (by omega), if_pos rfl]; omega

theorem readByte_write32_out (m : Mem) (a v x : Nat)
    (h : x ≠ a ∧ x ≠ a + 1 ∧ x ≠ a + 2 ∧ x ≠ a + 3) :
    readByte (write32 m a v) x = readByte m x := by
  unfold readByte write32
  rw [if_neg h.1, if_neg h.2.1, if_neg h.2.2.1, if_neg h.2.2.2]

theorem read16_lt (m : Mem) (a : Nat) : read16 m a < 65536 := by
  unfold read16 readByte
  omega

theorem read32_lt (m : Mem) (a : Nat) : read32 m a < 4294967296 := by
  unfold read32 read16 readByte
  omega

theorem read16_write16_same (m : Mem) (a v : Nat) :
    read16 (write16 m a v) a = v % 65536 := by
  unfold read16
  rw [readByte_write16_same0, readByte_write16_same1]
  omega

theorem read32_write32_same (m : Mem) (a v : Nat) :
    read32 (write32 m a v) a = v % 4294967296 := by
  obtain ⟨h0, h1, h2, h3⟩ := readByte_write32_same m a v
  unfold read32 read16
  rw [h0, h1]
  rw [show a + 2 + 1 = a + 3 by omega] at h3
  rw [h2, h3]
  omega

theorem read32_write16_out (m : Mem) (a v x : Nat)
    (h : x + 4 ≤ a ∨ a + 2 ≤ x) :
    read32 (write16 m a v) x = read32 m x := by
  unfold read32 read16
  rw [readByte_write16_out m a v x (by omega),
      readByte_write16_out m a v (x + 1) (by omega),
      readByte_write16_out m a v (x + 2) (by omega),
      readByte_write16_out m a v (x + 2 + 1) (by omega)]

theorem read32_write32_out (m : Mem) (a v x : Nat)
    (h : x + 4 ≤ a ∨ a + 4 ≤ x) :
    read32 (write32 m a v) x = read32 m x := by
  unfold read32 read16
  rw [readByte_write32_out m a v x (by omega),
      readByte_write32_out m a v (x + 1) (by omega),
      readByte_write32_out m a v (x + 2) (by omega),
      readByte_write32_out m a v (x + 2 + 1) (by omega)]

/-! ### Claim C1 — PLIC claim/complete -/

/-- C1, counterexample. The claim predicts that after `add_pending_irq(2)`
(no smaller IRQ pending), writing 2 to the context claim register removes
IRQ 2, so the next read returns 0. In the code the claim/complete write
only ever removes IRQ 1 (and only when the written value is 1): the read
after the write still returns 2, not 0. -/
theorem c1_counterexample :
    (Plic.new.add_pending_irq 2).handle_read 0x200004 4 = 2 ∧
    (((Plic.new.add_pending_irq 2).handle_write 0x200004 2 4).handle_read 0x200004 4) = 2 := by
  decide

/-- C1, amended. For every IRQ `k` and every context claim register
(offset in `[0x200000, 0x4000000)` with low 12 bits 4, width 4): after
`add_pending_irq(k)` on a PLIC whose pending set contains no IRQ smaller
than `k`, reading the claim register returns `k`; writing `k` back removes
`k` from the pending set only when `k = 1` (the write is ignored for every
other value), and for `k = 1` the next read returns 0 when no other IRQ is
pending. -/
theorem c1_plic_claim_complete (p : Plic) (k off : Nat)
    (h1 : 0x200000 ≤ off) (h2 : off < 0x4000000) (h3 : off % 4096 = 4)
    (hmin : ∀ j ∈ p.irq_pending, k ≤ j) :
    (p.add_pending_irq k).handle_read off 4 = k ∧
    (k ≠ 1 → (p.add_pending_irq k).handle_write off k 4 = p.add_pending_irq k) ∧
    (k = 1 →
      ((p.add_pending_irq k).handle_write off k 4).irq_pending = p.irq_pending.erase 1 ∧
      (p.irq_pending ⊆ {1} →
        ((p.add_pending_irq k).handle_write off k 4).handle_read off 4 = 0)) := by
  refine ⟨?_, ?_, ?_⟩
  · unfold Plic.handle_read Plic.add_pending_irq
    rw [if_neg (by omega), if_pos ⟨h1, h2, rfl, h3⟩]
    have hk : ((insert k p.irq_pending).min) = (k : WithTop Nat) := by
      rw [Finset.min_insert]
      exact min_eq_left (Finset.le_min fun a ha => by exact_mod_cast hmin a ha)
    rw [hk]
    exact WithTop.untop'_coe 0 k
  · intro hk1
    unfold Plic.handle_write Plic.add_pending_irq
    rw [if_neg (by omega), if_neg (by omega), if_neg (by omega),
        if_pos ⟨h1, h2, rfl, h3⟩, if_neg hk1]
  · intro hk1
    subst hk1
    have hw : (p.add_pending_irq 1).handle_write off 1 4 =
        ⟨(insert 1 p.irq_pending).erase 1⟩ := by
      unfold Plic.handle_write Plic.add_pending_irq
      rw [if_neg (by omega), if_neg (by omega), if_neg (by omega),
          if_pos ⟨h1, h2, rfl, h3⟩, if_pos rfl]
    refine ⟨by rw [hw]; exact Finset.erase_insert_eq_erase _ _, fun hsub => ?_⟩
    rw [hw]
    unfold Plic.handle_read
    rw [if_neg (by omega), if_pos ⟨h1, h2, rfl, h3⟩]
    have hempty : (insert 1 p.irq_pending).erase 1 = (∅ : Finset Nat) := by
      rw [Finset.erase_insert_eq_erase]
      rcases Finset.subset_singleton_iff.mp hsub with h | h <;> rw [h] <;> simp
    rw [hempty, Finset.min_empty]
    exact WithTop.untop'_top 0

/-- C1, witness: the amended theorem applied at `k = 1`, empty PLIC,
offset `0x200004`. -/
theorem c1_witness :
    (Plic.new.add_pending_irq 1).handle_read 0x200004 4 = 1 ∧
    ((1 : Nat) ≠ 1 →
      (Plic.new.add_pending_irq 1).handle_write 0x200004 1 4 = Plic.new.add_pending_irq 1) ∧
    ((1 : Nat) = 1 →
      ((Plic.new.add_pending_irq 1).handle_write 0x200004 1 4).irq_pending =
        Plic.new.irq_pending.erase 1 ∧
      (Plic.new.irq_pending ⊆ {1} →
        (((Plic.new.add_pending_irq 1).handle_write 0x200004 1 4).handle_read 0x200004 4) = 0)) :=
  c1_plic_claim_complete Plic.new 1 0x200004 (by omega) (by omega) (by omega)
    (fun j hj => by simp [Plic.new] at hj)

/-! ### Claim C2 — MMIO routing of the VirtIO window -/

/-- C2, counterexample. The claim places the VirtIO-MMIO block window at
`[0x1000_0000, 0x1000_1000)`; in the code the device sits at
`VIRTIO_BLK_ADDR = 0x0a00_0000`, so a fault at `0x1000_0000` routes to the
log-and-continue fallback, not to the VirtIO handler. -/
theorem c2_counterexample :
    mmioTarget 0x10000000 = MmioTarget.fallthrough ∧
    mmioTarget 0x10000000 ≠ MmioTarget.virtioDev := by
  decide

/-- C2, amended. Every faulting guest-physical address in
`[0x0a00_0000, 0x0a00_1000)` — the window `[VIRTIO_BLK_ADDR,
VIRTIO_BLK_ADDR + 0x1000)` of the code — routes to the VirtIO-MMIO block
device handler, not to the PLIC and not to the fallback (the dispatcher in
`handle_mmio_write` / `handle_mmio_read` branches on this routing). -/
theorem c2_virtio_routing (a : Nat)
    (h1 : VIRTIO_BLK_ADDR ≤ a) (h2 : a < VIRTIO_BLK_END) :
    mmioTarget a = MmioTarget.virtioDev := by
  unfold mmioTarget
  simp only [VIRTIO_BLK_ADDR, VIRTIO_BLK_END, PLIC_ADDR, PLIC_END] at h1 h2 ⊢
  rw [if_neg (by omega), if_pos (by omega)]

/-- C2, witness: the first address of the VirtIO window routes to the
VirtIO device. -/
theorem c2_witness : mmioTarget 0x0a000000 = MmioTarget.virtioDev :=
  c2_virtio_routing 0x0a000000 (by decide) (by decide)

/-! ### Claim C3 — traps with the interrupt bit set -/

/-- C3, counterexample. The claim predicts that an interrupt (scause bit
63 set) is not fatal and is routed to the guest; in the code a supervisor
external interrupt (`scause = 0x8000000000000009`) falls into the
dispatcher's catch-all `panic!` arm. -/
theorem c3_counterexample :
    handleTrap [] sys0 0x8000000000000009 0 0 0 0 = none := by
  rfl

/-- C3, amended. For every trap whose `scause` has the interrupt bit
(bit 63) set, the dispatcher treats the trap as fatal: `handle_trap`
panics (both the unknown-`scause` arm and the final catch-all arm panic),
and no interrupt is ever routed to the guest via the PLIC. -/
theorem c3_interrupts_fatal (disk : List Nat) (s : Sys)
    (scause sepc stval htval htinst : Nat)
    (h : scause.testBit 63 = true) :
    handleTrap disk s scause sepc stval htval htinst = none := by
  have h63 : 2 ^ 63 ≤ scause := Nat.testBit_implies_ge h
  have hbig : 9223372036854775808 ≤ scause := by norm_num at h63; omega
  unfold handleTrap
  rw [if_neg (by omega), if_neg (by omega)]

/-- C3, witness: the amended theorem applied to the smallest interrupt
cause value, `scause = 2^63`. -/
theorem c3_witness :
    handleTrap [] sys0 0x8000000000000000 0 0 0 0 = none :=
  c3_interrupts_fatal [] sys0 0x8000000000000000 0 0 0 0 (by decide)

/-! ### Claim C5 — access width on the VirtIO-MMIO window -/

/-- C5, counterexample. The claim says every VirtIO register access with a
width other than 4 is fatal; in the code only writes check the width —
`handle_mmio_read` ignores it, so an 8-byte read of the magic register
returns a value instead of panicking. -/
theorem c5_counterexample :
    VirtioBlk.new.handle_mmio_read 0x00 8 = some 0x74726976 := by
  decide

/-- C5, amended. Write accesses with a width other than 4 bytes are fatal
(the handler panics before touching any register, for every offset and
value) — but read accesses are not width-checked at all: the read handler
ignores the width argument, returning the same result for every width. -/
theorem c5_width_check (disk : List Nat) (vb : VirtioBlk) (plic : Plic)
    (gm : Mem) (off v w : Nat) (h : w ≠ 4) :
    VirtioBlk.handle_mmio_write disk vb plic gm off v w = none ∧
    ∀ w', vb.handle_mmio_read off w = vb.handle_mmio_read off w' := by
  constructor
  · unfold VirtioBlk.handle_mmio_write
    rw [if_pos h]
  · intro w'
    rfl

/-- C5, witness: an 8-wide write to the device-features-selector register
panics, while an 8-wide read of the max-queue-size register equals the
4-wide read. -/
theorem c5_witness :
    VirtioBlk.handle_mmio_write [] VirtioBlk.new Plic.new (fun _ => 0) 0x14 0 8 = none ∧
    VirtioBlk.new.handle_mmio_read 0x34 8 = VirtioBlk.new.handle_mmio_read 0x34 4 :=
  ⟨(c5_width_check [] VirtioBlk.new Plic.new (fun _ => 0) 0x14 0 8 (by decide)).1,
   (c5_width_check [] VirtioBlk.new Plic.new (fun _ => 0) 0x34 0 8 (by decide)).2 4⟩

/-! ### Claim C7 — guest-memory write bounds -/

/-- C7, code bug. The spec requires `write_bytes` to fail fast on any
range outside `[base, base + size)`; the code performs no bounds check of
any kind. Evaluated at the failing input — the 64 MiB RAM region
(`base = 0x8000_0000`, `size = 0x400_0000`, backing store at host range
`[0, 0x4000000)`) with `guest_addr = base + size` and a one-byte source —
the write succeeds and lands at host address `0x4000000`, the first byte
past the end of the backing store (previously 0). -/
theorem c7_unchecked_write :
    GuestMemory.write_bytes ⟨0x4000000, 0x80000000⟩ 0 (fun _ => 0) 0x84000000 [0x42]
        0x4000000 = 0x42 ∧
    (fun _ => (0 : Nat)) 0x4000000 = 0 ∧
    (0 : Nat) + (⟨0x4000000, 0x80000000⟩ : GuestMemory).size ≤ 0x4000000 := by
  refine ⟨?_, rfl, by norm_num⟩
  decide

/-! ### Claim C4 — virtqueue ring indexing -/

/-- C4, counterexample. With the queue size configured to 2
(`queue_num = 2`) and `used.idx = 2`, `avail.idx = 3`, the claim predicts
the chain head is read from `avail.ring[2 % 2] = avail.ring[0] = 7` and
the used element is placed at slot `2 % 2 = 0`. The code instead reads
`avail.ring[2 % 256] = avail.ring[2] = 5` and writes the used element
`{id = 5}` at slot `2 % 256 = 2` (guest address `0x3014`), with
`used.idx` bumped to 3. -/
theorem c4_counterexample :
    (VirtioBlk.process_virtqueue [] stC4 Plic.new gmC4).map
        (fun t => (read32 t.2.2 0x3014, read16 t.2.2 0x3002)) = some (5, 3) ∧
    read16 gmC4 (0x2004 + 2 * (2 % stC4.queue_num)) = 7 ∧
    (5 : Nat) ≠ 7 := by
  refine ⟨by decide, by decide, by decide⟩

/-- C4, amended. For every loop index `i` of the notify processing (every
index from `used.idx` up to but not including `avail.idx` runs this loop
body), when the head descriptor's request type is `VIRTIO_BLK_T_IN` and
its flags have `VIRTQ_DESC_F_NEXT` set, the device reads the chain head
from `avail.ring` at index `i` modulo 256 — the fixed ring-array length,
regardless of the queue size written to the queue-size register — appends
the used element `{id = chain head, len = bytes written}` into the used
ring at `used.idx` modulo 256, and then increments `used.idx` by one. -/
theorem c4_ring_index_mod_256 (disk : List Nat) (vb : VirtioBlk) (plic : Plic)
    (gm : Mem) (i lastUsed : Nat)
    (hlu : lastUsed + 1 < 65536)
    (hreq : read32 gm (read64 gm (vb.queue_desc +
        16 * read16 gm (vb.queue_avail + 4 + 2 * (i % 256)))) = 0)
    (hnext : read16 gm (vb.queue_desc +
        16 * read16 gm (vb.queue_avail + 4 + 2 * (i % 256)) + 12) &&& 1 ≠ 0) :
    ∃ gm',
      processOne disk vb plic gm i lastUsed =
        some ({ vb with irq_status := vb.irq_status ||| 1 },
              plic.add_pending_irq 1, gm', lastUsed + 1) ∧
      read32 gm' (vb.queue_used + 4 + 8 * (lastUsed % 256)) =
        read16 gm (vb.queue_avail + 4 + 2 * (i % 256)) ∧
      read32 gm' (vb.queue_used + 4 + 8 * (lastUsed % 256) + 4) =
        min (read32 gm (vb.queue_desc + 16 * read16 gm (vb.queue_desc +
              16 * read16 gm (vb.queue_avail + 4 + 2 * (i % 256)) + 14) + 8))
            (disk.length - read64 gm (read64 gm (vb.queue_desc +
              16 * read16 gm (vb.queue_avail + 4 + 2 * (i % 256))) + 8) * 512 %
              18446744073709551616) ∧
      read16 gm' (vb.queue_used + 2) = lastUsed + 1 := by
  simp only [processOne]
  rw [if_neg (not_ne_iff.mpr hreq), if_pos hnext]
  refine ⟨_, rfl, ?_, ?_, ?_⟩
  · rw [read32_write16_out _ _ _ _ (Or.inr (by omega)),
        read32_write32_out _ _ _ _ (Or.inl (by omega)),
        read32_write32_same]
    have := read16_lt gm (vb.queue_avail + 4 + 2 * (i % 256))
    omega
  · rw [read32_write16_out _ _ _ _ (Or.inr (by omega)),
        read32_write32_same]
    have := read32_lt gm (vb.queue_desc + 16 * read16 gm (vb.queue_desc +
        16 * read16 gm (vb.queue_avail + 4 + 2 * (i % 256)) + 14) + 8)
    omega
  · rw [read16_write16_same]
    omega

/-- C4, witness: the amended theorem applied to the concrete queue of the
counterexample (queue size 2, loop index 2, `used.idx` 2). -/
theorem c4_witness :
    ∃ gm',
      processOne [] stC4 Plic.new gmC4 2 2 =
        some ({ stC4 with irq_status := stC4.irq_status ||| 1 },
              Plic.new.add_pending_irq 1, gm', 2 + 1) ∧
      read32 gm' (stC4.queue_used + 4 + 8 * (2 % 256)) =
        read16 gmC4 (stC4.queue_avail + 4 + 2 * (2 % 256)) ∧
      read32 gm' (stC4.queue_used + 4 + 8 * (2 % 256) + 4) =
        min (read32 gmC4 (stC4.queue_desc + 16 * read16 gmC4 (stC4.queue_desc +
              16 * read16 gmC4 (stC4.queue_avail + 4 + 2 * (2 % 256)) + 14) + 8))
            (List.length ([] : List Nat) - read64 gmC4 (read64 gmC4 (stC4.queue_desc +
              16 * read16 gmC4 (stC4.queue_avail + 4 + 2 * (2 % 256))) + 8) * 512 %
              18446744073709551616) ∧
      read16 gm' (stC4.queue_used + 2) = 2 + 1 :=
  c4_ring_index_mod_256 [] stC4 Plic.new gmC4 2 2 (by decide) (by decide) (by decide)

/-! ### Claim C6 — the status "byte" store -/

/-- C6, code bug, evaluated at the failing input. For a three-descriptor
read request whose status descriptor points at guest address `0x6000`,
with the guest byte at `0x6001` initially `0xab`: after processing, the
status byte at `0x6000` is 0 (as the claim says) but the byte at `0x6001`
has also been overwritten to 0 — the source stores a 32-bit zero through
`*mut u32` instead of one byte, clobbering the three bytes after the
status byte (here shown for the first of them). The data buffer did
receive the disk bytes (first byte 1), so the request really completed. -/
theorem c6_status_write_clobbers :
    (VirtioBlk.process_virtqueue [1, 2, 3, 4] stC6 Plic.new gmC6).map
        (fun t => (readByte t.2.2 0x6000, readByte t.2.2 0x6001, readByte t.2.2 0x5000)) =
      some (0, 0, 1) ∧
    readByte gmC6 0x6001 = 0xab := by
  refine ⟨by decide, by decide⟩

/-! ### Claim C8 — guest-page-fault decoding -/

/-- C8. For every load or store guest-page fault (`scause` 21 or 23) with
`htinst ≠ 0`, the dispatcher performs the MMIO access at the faulting
guest-physical address `(htval << 2) | (stval & 0b11)` with the width
decoded from `htinst` and the register index from bits 20–24 (store) or
7–11 (load) of `htinst`, then advances `sepc` by 2 when bit 1 of `htinst`
is zero (compressed) and by 4 otherwise; and whenever the opcode/funct3
pair of `htinst` matches none of the known load/store encodings, the
decoded width is 4. -/
theorem c8_fault_decode (disk : List Nat) (s : Sys)
    (scause sepc stval htval htinst : Nat)
    (hc : scause = 21 ∨ scause = 23) (hh : htinst ≠ 0) :
    handleTrap disk s scause sepc stval htval htinst =
      (if scause = 23 then
         handleMmioWrite disk s ((htval <<< 2) % 18446744073709551616 ||| (stval &&& 0b11))
           ((htinst >>> 20) &&& 0x1f) (decodeWidth htinst)
       else
         handleMmioRead s ((htval <<< 2) % 18446744073709551616 ||| (stval &&& 0b11))
           ((htinst >>> 7) &&& 0x1f) (decodeWidth htinst)).map
        (fun s' => ({ s' with vcpu := { s'.vcpu with
            sepc := (sepc + (if htinst &&& 0b10 = 0 then 2 else 4)) %
              18446744073709551616 } }, ([] : List (List Nat)))) ∧
    (¬ ((htinst &&& 0x7f = 0x03 ∧ (htinst >>> 12) &&& 0x7 < 7) ∨
        (htinst &&& 0x7f = 0x23 ∧ (htinst >>> 12) &&& 0x7 < 4)) →
      decodeWidth htinst = 4) := by
  constructor
  · rcases hc with h | h <;> subst h <;> simp [handleTrap, hh]
  · intro hun
    simp only [decodeWidth]
    split_ifs <;> omega

/-- C8, witness: the decode theorem applied at a concrete load
guest-page fault with an unknown `htinst` encoding (opcode 1), showing
the default width 4. -/
theorem c8_witness : decodeWidth 1 = 4 :=
  (c8_fault_decode [] sys0 21 0 0 0 1 (Or.inl rfl) (by decide)).2 (by decide)

/-! ### Claim C9 — SBI console putchar -/

/-- Helper for C9: the per-call behavior of a legacy console-putchar
ecall through the trap dispatcher. -/
theorem putchar_call_spec (disk : List Nat) (s : Sys) (sepc stval htval htinst : Nat)
    (h7 : s.vcpu.a7 = 1) (h6 : s.vcpu.a6 = 0) :
    handleTrap disk s 10 sepc stval htval htinst =
      some ({ s with
                vcpu := { s.vcpu with
                            a0 := 0
                            a1 := 0
                            sepc := (sepc + 4) % 18446744073709551616 }
                conbuf := if s.vcpu.a0 % 256 = 10 then [] else s.conbuf ++ [s.vcpu.a0 % 256] },
            if s.vcpu.a0 % 256 = 10 then [consoleLine s.conbuf] else []) := by
  have hsbi : handleSbiCall s.vcpu s.conbuf =
      some ({ s.vcpu with a0 := 0, a1 := 0 },
            (if s.vcpu.a0 % 256 = 10 then [] else s.conbuf ++ [s.vcpu.a0 % 256]),
            (if s.vcpu.a0 % 256 = 10 then [consoleLine s.conbuf] else [])) := by
    unfold handleSbiCall
    rw [h7, h6]
    by_cases hch : s.vcpu.a0 % 256 = 10 <;> simp [hch, h7, h6, intToU64]
  simp only [handleTrap, hsbi, if_pos rfl]
  by_cases hch : s.vcpu.a0 % 256 = 10 <;> simp [hch]

/-- Helper for C9: the putchar sequence for `H e l l o \n` starting from a
fresh state emits exactly the single host line `"[guest] Hello"` (the
byte list `[91, ..., 111]` spells `"[guest] Hello"`). -/
theorem putchar_hello_run :
    (runPutchars [] [72, 101, 108, 108, 111, 10] sys0).map (fun t => t.2) =
      some [[91, 103, 117, 101, 115, 116, 93, 32, 72, 101, 108, 108, 111]] := by
  have hv : validUtf8 [72, 101, 108, 108, 111] = true := by decide
  simp only [runPutchars, handleTrap, handleSbiCall, sys0, VCpu.zero, intToU64,
    consoleLine, guestTagBytes, notUtf8Bytes]
  norm_num [hv]

/-- C9, counterexample. The claim predicts that a newline putchar emits
one host line consisting of `"[guest] "` followed by the buffered bytes,
unconditionally. The source emits `"[guest] "` followed by
`from_utf8(&buffer).unwrap_or("(not utf-8)")`: after putchar of the byte
`0xff` (not valid UTF-8) and then a newline, the emitted line is
`"[guest] (not utf-8)"` (bytes `[91, ..., 32, 40, 110, ..., 41]`), not
`"[guest] "` followed by the buffered byte `0xff`. -/
theorem c9_counterexample :
    (runPutchars [] [255, 10] sys0).map (fun t => t.2) =
      some [[91, 103, 117, 101, 115, 116, 93, 32,
             40, 110, 111, 116, 32, 117, 116, 102, 45, 56, 41]] ∧
    ([[91, 103, 117, 101, 115, 116, 93, 32,
       40, 110, 111, 116, 32, 117, 116, 102, 45, 56, 41]] : List (List Nat)) ≠
      [[91, 103, 117, 101, 115, 116, 93, 32, 255]] := by
  constructor
  · have hv : validUtf8 [255] = false := by decide
    simp only [runPutchars, handleTrap, handleSbiCall, sys0, VCpu.zero, intToU64,
      consoleLine, guestTagBytes, notUtf8Bytes]
    norm_num [hv]
  · decide

/-- C9, amended. Every legacy console-putchar ecall (`a7 = 1, a6 = 0`,
trap cause 10) appends the low byte of `a0` to the console buffer unless
that byte is a newline, in which case it emits exactly one host line —
`"[guest] "` followed by the buffered bytes when they are valid UTF-8,
and by the placeholder `"(not utf-8)"` otherwise (`consoleLine`) — and
clears the buffer; each call returns with `a0 = 0`, `a1 = 0` and `sepc`
advanced by 4. And the six-call sequence for the bytes `H e l l o \n`
(valid UTF-8) emits exactly one line, `"[guest] Hello"`. -/
theorem c9_putchar_console :
    (∀ (disk : List Nat) (s : Sys) (sepc stval htval htinst : Nat),
      s.vcpu.a7 = 1 → s.vcpu.a6 = 0 →
      handleTrap disk s 10 sepc stval htval htinst =
        some ({ s with
                  vcpu := { s.vcpu with
                              a0 := 0
                              a1 := 0
                              sepc := (sepc + 4) % 18446744073709551616 }
                  conbuf := if s.vcpu.a0 % 256 = 10 then [] else
                    s.conbuf ++ [s.vcpu.a0 % 256] },
              if s.vcpu.a0 % 256 = 10 then [consoleLine s.conbuf] else [])) ∧
    (runPutchars [] [72, 101, 108, 108, 111, 10] sys0).map (fun t => t.2) =
      some [[91, 103, 117, 101, 115, 116, 93, 32, 72, 101, 108, 108, 111]] :=
  ⟨fun disk s sepc stval htval htinst h7 h6 =>
    putchar_call_spec disk s sepc stval htval htinst h7 h6,
   putchar_hello_run⟩

/-- C9, witness: the per-call part applied to a state about to print the
byte 65. -/
theorem c9_witness :
    handleTrap [] s9w 10 0 0 0 0 =
      some ({ s9w with
                vcpu := { s9w.vcpu with a0 := 0, a1 := 0, sepc := 4 }
                conbuf := [65] }, []) :=
  c9_putchar_console.1 [] s9w 0 0 0 0 rfl rfl

/-! ### Claim C10 — failing SBI calls leave a1 alone -/

/-- C10. Both failing SBI calls — probe-extension (`eid = 0x10, fid = 3`)
and legacy console getchar (`eid = 2, fid = 0`) — return
`Err(-1)`: the handler writes `-1 as u64 = 2^64 - 1` into `a0` and
changes nothing else; in particular `a1` keeps whatever value the guest
held in it, as do the console buffer and all other registers. -/
theorem c10_sbi_error_frame (v : VCpu) (buf : List Nat)
    (h : (v.a7 = 0x10 ∧ v.a6 = 3) ∨ (v.a7 = 2 ∧ v.a6 = 0)) :
    handleSbiCall v buf = some ({ v with a0 := 18446744073709551615 }, buf, []) := by
  have hneg : intToU64 (-1) = 18446744073709551615 := by rfl
  rcases h with ⟨h7, h6⟩ | ⟨h7, h6⟩ <;> simp [handleSbiCall, h7, h6, hneg]

/-- C10, witness: the getchar call on a vCPU holding `0xdead` in `a1`
fails with `a0 = 2^64 - 1` while `a1` (and everything else) is kept. -/
theorem c10_witness :
    handleSbiCall v10 [] = some ({ v10 with a0 := 18446744073709551615 }, [], []) :=
  c10_sbi_error_frame v10 [] (Or.inr ⟨rfl, rfl⟩)

end Hyp
